import Mathlib

/-!
Formal model of the Jotform-Extension WebSocket backend
(src/backend/main.py, src/backend/connection_manager.py,
src/backend/automation_generator.py).

The embedding is shallow: Python dictionaries become association lists,
the scalar JSON values the dispatcher inspects become the inductive
type JVal, wall-clock timestamps become abstract Nat ticks, and the
transport (whether a given send raises) is an explicit Bool oracle.
Fallible Python code is embedded as Except-valued functions whose
error component carries the Python exception description.
-/

/-- Scalar JSON values as decoded by json.loads and inspected by the
dispatcher. Python None (from dict.get on an absent key, and from a
JSON null) is identified with JVal.null, matching main.py, which
treats the two identically. -/
inductive JVal where
  | null : JVal
  | bool : Bool → JVal
  | num : Int → JVal
  | str : String → JVal
deriving DecidableEq, Repr

/-- Decimal digit to its ASCII character, embedding Python str(int)
digit rendering. -/
def decDigitChar (d : Nat) : Char :=
  if d = 0 then '0' else if d = 1 then '1' else if d = 2 then '2'
  else if d = 3 then '3' else if d = 4 then '4' else if d = 5 then '5'
  else if d = 6 then '6' else if d = 7 then '7' else if d = 8 then '8'
  else '9'

/-- Inverse of decDigitChar on decimal digits. -/
def decCharToDigit (c : Char) : Nat :=
  if c = '0' then 0 else if c = '1' then 1 else if c = '2' then 2
  else if c = '3' then 3 else if c = '4' then 4 else if c = '5' then 5
  else if c = '6' then 6 else if c = '7' then 7 else if c = '8' then 8
  else 9

/-- Base-10 digits of n, least significant first; the first argument
is structural fuel (n itself suffices). -/
def decDigitsFuel : Nat → Nat → List Nat
  | 0, _ => []
  | _ + 1, 0 => []
  | fuel + 1, n + 1 => ((n + 1) % 10) :: decDigitsFuel fuel ((n + 1) / 10)

def decDigits (n : Nat) : List Nat := decDigitsFuel n n

/-- Recombine least-significant-first base-10 digits. -/
def ofDec (ds : List Nat) : Nat := ds.foldr (fun d acc => d + 10 * acc) 0

/-- Embedding of Python str(n) for a natural number n. -/
def natToDec (n : Nat) : String :=
  if n = 0 then "0" else String.mk (((decDigits n).map decDigitChar).reverse)

/-- Embedding of Python str(n) for an integer n. -/
def intToDec (n : Int) : String :=
  if n < 0 then "-" ++ natToDec n.natAbs else natToDec n.toNat

/-- Embedding of Python str(v) for the scalar values in JVal, as used
by the f-string in the unknown-message-type branch of main.py. -/
def pyStr : JVal → String
  | .null => "None"
  | .bool true => "True"
  | .bool false => "False"
  | .num n => intToDec n
  | .str s => s

/-- Name of the Python type of a scalar value, as it appears in
AttributeError messages. -/
def pyTypeName : JVal → String
  | .null => "NoneType"
  | .bool _ => "bool"
  | .num _ => "int"
  | .str _ => "str"

/-- Embedding of Python str.replace applied to single characters,
used by get_custom_sequence as sequence_type.replace of underscore
by space. -/
def pyReplaceChar (a b : Char) (s : String) : String :=
  String.mk (s.data.map (fun c => if c = a then b else c))

/-- Worker for pyTitle: the Bool records whether the previous
character was cased (for ASCII, a letter). -/
def pyTitleGo : List Char → Bool → List Char
  | [], _ => []
  | c :: cs, prevCased =>
    (if c.isAlpha then (if prevCased then c.toLower else c.toUpper) else c)
      :: pyTitleGo cs c.isAlpha

/-- Embedding of Python str.title over the ASCII fragment: the first
letter of each maximal letter run is uppercased, later letters are
lowercased, non-letters are unchanged. -/
def pyTitle (s : String) : String := String.mk (pyTitleGo s.data false)

/-- One step of an automation sequence: the dict literals of the two
catalog functions, with the keys that are absent in some steps made
optional. -/
structure Step where
  action : String
  selector : Option String := none
  url : Option String := none
  text : Option String := none
  description : String
  delay : Nat
deriving DecidableEq, Repr

/-- An automation sequence document as returned by the catalog. -/
structure SequenceDoc where
  sequenceId : String
  name : String
  steps : List Step
deriving DecidableEq, Repr

namespace AutoGen

/-- AutomationSequenceGenerator.get_form_creation_sequence from
src/backend/automation_generator.py. -/
def get_form_creation_sequence : SequenceDoc :=
  { sequenceId := "form-creation-v1"
    name := "Create New Form"
    steps :=
      [ { action := "navigate"
          url := some "https://www.jotform.com/myforms"
          description := "Navigate to Jotform workspace"
          delay := 2000 }
      , { action := "click"
          selector := some "#root > div.lsApp > div.lsApp-body.newWorkspaceUI.newTeamCoversActive > div.lsApp-sidebar.relative > div.lsApp-sidebar-content.lsApp-sidebar-ls > div.lsApp-sidebar-button > button"
          description := "Click Create button"
          delay := 1000 }
      , { action := "click"
          selector := some "#create-asset-modal-container > div > div.sc-khQegj.fNgvag.forSideBySideCreation.jfWizard-item.jfWizard-gutter.withMaxWidth > div > div > div.jfWizard-body.sc-hUpaCq.gxAShf > div > ul > li:nth-child(1) > button"
          description := "Click Form button"
          delay := 1000 }
      , { action := "click"
          selector := some "#modal-container > div > div.isMain.largeWizardItem.moreThanFourItem.jfWizard-item > div.jfWizard-gutter.withMaxWidth > div > ul > li.jfWizard-list-item-wrapper.forStartFromScratch > button"
          description := "Click Start from scratch"
          delay := 1000 }
      , { action := "click"
          selector := some "#modal-container > div > div.largeWizardItem.isStartFromScratch.forNewOptions.jfWizard-item > div.jfWizard-gutter.withMaxWidth > div > ul > li.jfWizard-list-item-wrapper.forClassicForm > button"
          description := "Click Classic form"
          delay := 500 }
      , { action := "click"
          selector := some "#portal-root > div > div > div > div > div > div.jfModal-header > div.jfModal-title > div.jfModal-close"
          description := "Close modal dialog"
          delay := 1000 } ] }

/-- AutomationSequenceGenerator.get_form_building_sequence from
src/backend/automation_generator.py. -/
def get_form_building_sequence : SequenceDoc :=
  { sequenceId := "form-building-v1"
    name := "Build Form Elements"
    steps :=
      [ { action := "wait"
          description := "Wait for page to initialize"
          delay := 1000 }
      , { action := "click"
          selector := some "#id_1 > div.question-wrapper.questionWrapper > div > div"
          description := "Click on heading form element"
          delay := 1000 }
      , { action := "click"
          selector := some "#app_wizards > div > button.btn.sc-Properties.radius-full.magnet-button.inline-flex.shrink-0.justify-center.items-center.font-medium.duration-300.outline-2.outline-transparent.outline-offset-0.focus\\:outline-opacity-50.h-10.px-2\\.5.border-0.group.cursor-pointer.color-white.bg-gray-600.hover\\:bg-gray-700.focus\\:outline-gray-300"
          description := "Click settings button"
          delay := 1000 }
      , { action := "type"
          selector := some "#text"
          text := some "Course Registration"
          description := "Enter form title text"
          delay := 500 }
      , { action := "click"
          selector := some "#question-settings-close-btn"
          description := "Close settings menu"
          delay := 500 } ] }

/-- AutomationSequenceGenerator.get_custom_sequence from
src/backend/automation_generator.py. For a non-string sequence_type
the name computation sequence_type.replace raises AttributeError,
embedded as the Except error carrying the Python message. The
parameters argument is accepted and never read, exactly as in the
source. -/
def get_custom_sequence (sequence_type : JVal) (parameters : List (String × JVal)) :
    Except String SequenceDoc :=
  if sequence_type = .str "form_creation" then .ok get_form_creation_sequence
  else if sequence_type = .str "form_building" then .ok get_form_building_sequence
  else
    match sequence_type with
    | .str s =>
        .ok { sequenceId := "custom-" ++ s ++ "-v1"
              name := "Custom " ++ pyTitle (pyReplaceChar '_' ' ' s)
              steps := [] }
    | v =>
        .error ("\x27" ++ pyTypeName v ++ "\x27 object has no attribute \x27replace\x27")

end AutoGen

namespace MainGen

/-- AutomationSequenceGenerator.get_form_creation_sequence as inlined
in src/backend/main.py (the dispatcher uses this copy, whose selector
strings differ from the automation_generator.py module). -/
def get_form_creation_sequence : SequenceDoc :=
  { sequenceId := "form-creation-v1"
    name := "Create New Form"
    steps :=
      [ { action := "navigate"
          url := some "https://www.jotform.com/myforms"
          description := "Navigate to Jotform workspace"
          delay := 2000 }
      , { action := "click"
          selector := some "[data-testid=\x27create-button\x27], .create-button, button[aria-label*=\x27Create\x27]"
          description := "Click Create button"
          delay := 1000 }
      , { action := "click"
          selector := some "[data-testid=\x27form-button\x27], .form-button, button[aria-label*=\x27Form\x27]"
          description := "Click Form button"
          delay := 1000 }
      , { action := "click"
          selector := some "[data-testid=\x27start-from-scratch\x27], .start-from-scratch, button[aria-label*=\x27Start from scratch\x27]"
          description := "Click Start from scratch"
          delay := 1000 }
      , { action := "click"
          selector := some "[data-testid=\x27classic-form\x27], .classic-form, button[aria-label*=\x27Classic form\x27]"
          description := "Click Classic form"
          delay := 500 }
      , { action := "click"
          selector := some "[data-testid=\x27close-modal\x27], .close-modal, button[aria-label*=\x27Close\x27]"
          description := "Close modal dialog"
          delay := 1000 } ] }

/-- AutomationSequenceGenerator.get_form_building_sequence as inlined
in src/backend/main.py. -/
def get_form_building_sequence : SequenceDoc :=
  { sequenceId := "form-building-v1"
    name := "Build Form Elements"
    steps :=
      [ { action := "wait"
          description := "Wait for page to initialize"
          delay := 1000 }
      , { action := "click"
          selector := some "[data-testid=\x27heading-form\x27], .heading-form, .form-element[data-type=\x27control_head\x27]"
          description := "Click on heading form element"
          delay := 1000 }
      , { action := "click"
          selector := some "[data-testid=\x27settings-button\x27], .settings-button, button[aria-label*=\x27Settings\x27]"
          description := "Click settings button"
          delay := 1000 }
      , { action := "type"
          selector := some "[data-testid=\x27text-field\x27], .text-field, input[type=\x27text\x27], textarea"
          text := some "Course Registration"
          description := "Enter form title text"
          delay := 500 }
      , { action := "click"
          selector := some "[data-testid=\x27settings-close\x27], .settings-close, button[aria-label*=\x27Close\x27]"
          description := "Close settings menu"
          delay := 500 } ] }

/-- AutomationSequenceGenerator.get_custom_sequence as inlined in
src/backend/main.py; identical logic to the automation_generator.py
copy but returning the main.py catalog documents. -/
def get_custom_sequence (sequence_type : JVal) (parameters : List (String × JVal)) :
    Except String SequenceDoc :=
  if sequence_type = .str "form_creation" then .ok get_form_creation_sequence
  else if sequence_type = .str "form_building" then .ok get_form_building_sequence
  else
    match sequence_type with
    | .str s =>
        .ok { sequenceId := "custom-" ++ s ++ "-v1"
              name := "Custom " ++ pyTitle (pyReplaceChar '_' ' ' s)
              steps := [] }
    | v =>
        .error ("\x27" ++ pyTypeName v ++ "\x27 object has no attribute \x27replace\x27")

end MainGen

/-- Opaque handle standing for one WebSocket object. FastAPI hands
each accepted connection to the endpoint as a distinct object, so
handles are drawn from a countable type. -/
abbrev ConnId := Nat

/-- Per-connection metadata dict value stored by
ConnectionManager.connect: the keys client_id, connected_at and
last_activity of the Python dict literal. -/
structure Meta where
  client_id : String
  connected_at : Nat
  last_activity : Nat
deriving DecidableEq, Repr

/-- State of a ConnectionManager (src/backend/connection_manager.py,
and the character-identical inline copy in src/backend/main.py):
the active_connections list and the connection_metadata dict, the
latter as an association list in insertion order. -/
structure Manager where
  active_connections : List ConnId
  connection_metadata : List (ConnId × Meta)
deriving DecidableEq, Repr

namespace Manager

/-- ConnectionManager.__init__: empty list, empty dict. -/
def init : Manager := { active_connections := [], connection_metadata := [] }

/-- Python dict assignment d[ws] = v: replace in place when the key
exists, append otherwise. -/
def insertMeta (l : List (ConnId × Meta)) (ws : ConnId) (v : Meta) :
    List (ConnId × Meta) :=
  if l.any (fun p => p.1 = ws) then
    l.map (fun p => if p.1 = ws then (ws, v) else p)
  else l ++ [(ws, v)]

/-- Python del d[ws] (always guarded in the source by membership of
ws in active_connections). -/
def eraseMeta (l : List (ConnId × Meta)) (ws : ConnId) : List (ConnId × Meta) :=
  l.filter (fun p => p.1 ≠ ws)

/-- The body of the guarded update in send_personal_message and
broadcast: set last_activity of the entry for ws when one exists,
leave every other entry unchanged. -/
def updateActivity (l : List (ConnId × Meta)) (ws : ConnId) (now : Nat) :
    List (ConnId × Meta) :=
  l.map (fun p => if p.1 = ws then (p.1, { p.2 with last_activity := now }) else p)

/-- The fallback client id computed by connect when client_id is
falsy: the Python f-string client_ followed by
len(self.active_connections) measured after the append. -/
def fallbackClientId (m : Manager) : String :=
  "client_" ++ natToDec (m.active_connections.length + 1)

/-- Python client_id or fallback: the or operator takes the fallback
when client_id is None or the empty string (both falsy). -/
def chosenClientId (m : Manager) (client_id : Option String) : String :=
  match client_id with
  | some s => if s = "" then fallbackClientId m else s
  | none => fallbackClientId m

/-- ConnectionManager.connect: accept the handshake, append the
websocket to active_connections, record metadata. The wall-clock
datetime.now() values are the abstract tick now. -/
def connect (m : Manager) (ws : ConnId) (client_id : Option String) (now : Nat) :
    Manager :=
  { active_connections := m.active_connections ++ [ws]
    connection_metadata :=
      insertMeta m.connection_metadata ws
        { client_id := chosenClientId m client_id
          connected_at := now
          last_activity := now } }

/-- ConnectionManager.disconnect: remove the websocket and its
metadata when it is in active_connections, otherwise do nothing. -/
def disconnect (m : Manager) (ws : ConnId) : Manager :=
  if ws ∈ m.active_connections then
    { active_connections := m.active_connections.erase ws
      connection_metadata := eraseMeta m.connection_metadata ws }
  else m

/-- ConnectionManager.send_personal_message. The ok flag is the
transport oracle: websocket.send_text succeeded (true) or raised
(false). On success the metadata entry for ws, when present, gets a
fresh last_activity; on failure the except branch calls disconnect. -/
def send_personal_message (m : Manager) (ws : ConnId) (ok : Bool) (now : Nat) :
    Manager :=
  if ok then
    { m with connection_metadata := updateActivity m.connection_metadata ws now }
  else disconnect m ws

/-- The for loop of ConnectionManager.broadcast over a fixed list of
connections: per connection, a failing send_text appends it to the
disconnected list, a succeeding one delivers the message and updates
last_activity. Returns the updated metadata, the connections that
received the message and the disconnected list, each in sweep
order. The active_connections list is never touched here. -/
def broadcastSweep (meta : List (ConnId × Meta)) (conns : List ConnId)
    (fails : ConnId → Bool) (now : Nat) :
    List (ConnId × Meta) × List ConnId × List ConnId :=
  match conns with
  | [] => (meta, [], [])
  | c :: rest =>
    if fails c then
      let r := broadcastSweep meta rest fails now
      (r.1, r.2.1, c :: r.2.2)
    else
      let r := broadcastSweep (updateActivity meta c now) rest fails now
      (r.1, c :: r.2.1, r.2.2)

/-- ConnectionManager.broadcast: sweep over active_connections with
the transport oracle fails, then evict each collected disconnected
client after the sweep. Returns the final manager, the connections
that received the message, and the evicted connections. -/
def broadcast (m : Manager) (fails : ConnId → Bool) (now : Nat) :
    Manager × List ConnId × List ConnId :=
  let r := broadcastSweep m.connection_metadata m.active_connections fails now
  ( r.2.2.foldl disconnect
      { active_connections := m.active_connections, connection_metadata := r.1 }
  , r.2.1, r.2.2 )

/-- len(self.active_connections), as used by the health endpoints. -/
def activeCount (m : Manager) : Nat := m.active_connections.length

/-- Keys of the connection_metadata dict. -/
def metaKeys (m : Manager) : List ConnId := m.connection_metadata.map Prod.fst

end Manager

/-- A decoded JSON object restricted to the five keys the dispatcher
in main.py reads; none means the key is absent from the object. -/
structure Msg where
  type? : Option JVal
  sequence_type? : Option JVal
  parameters? : Option (List (String × JVal))
  status? : Option JVal
  sequence_id? : Option JVal
deriving DecidableEq, Repr

namespace Msg

/-- message.get of the type key: None when absent. -/
def getType (m : Msg) : JVal := m.type?.getD .null

/-- message.get of sequence_type with default form_creation: the
default applies only when the key is absent, a JSON null is passed
through as None. -/
def getSequenceType (m : Msg) : JVal := m.sequence_type?.getD (.str "form_creation")

/-- message.get of parameters with default empty dict. -/
def getParameters (m : Msg) : List (String × JVal) := m.parameters?.getD []

/-- message.get of the status key: None when absent. -/
def getStatus (m : Msg) : JVal := m.status?.getD .null

/-- message.get of the sequence_id key: None when absent. -/
def getSequenceId (m : Msg) : JVal := m.sequence_id?.getD .null

end Msg

/-- Decode outcome of one inbound text frame: json.loads raised
(malformed), returned a non-dict scalar on which message.get then
raises AttributeError (nonObject), or returned an object (decoded). -/
inductive Frame where
  | malformed : Frame
  | nonObject : JVal → Frame
  | decoded : Msg → Frame
deriving DecidableEq, Repr

/-- Outbound envelopes of main.py, each carrying its timestamp tick. -/
inductive Response where
  | connection_established : String → Nat → Response
  | automation_sequence_response : SequenceDoc → Nat → Response
  | pong : Nat → Response
  | status_acknowledged : (sequence_id : JVal) → (status : JVal) → Nat → Response
  | error : String → Nat → Response
deriving DecidableEq, Repr

/-- The routing of a decoded message in websocket_endpoint: the
if/elif chain on message.get of type. The Except error carries a
handler-internal Python exception description (only the custom
sequence branch can raise, on a non-string sequence_type). -/
def routeDecoded (m : Msg) (t : Nat) : Except String Response :=
  if m.getType = .str "get_automation_sequence" then
    (if m.getSequenceType = .str "form_creation" then
        Except.ok MainGen.get_form_creation_sequence
      else if m.getSequenceType = .str "form_building" then
        Except.ok MainGen.get_form_building_sequence
      else MainGen.get_custom_sequence m.getSequenceType m.getParameters).map
      (fun sequence => Response.automation_sequence_response sequence t)
  else if m.getType = .str "ping" then .ok (.pong t)
  else if m.getType = .str "automation_status" then
    .ok (.status_acknowledged m.getSequenceId m.getStatus t)
  else .ok (.error ("Unknown message type: " ++ pyStr m.getType) t)

/-- Handling of one inbound frame by the try/except body of the
websocket_endpoint loop: a JSONDecodeError yields the Invalid JSON
format error envelope, an AttributeError from message.get on a
non-dict value is caught by the generic except as a Server error,
and any handler-internal fault likewise; every path sends exactly
the listed envelopes through send_personal_message. -/
def handleFrame (f : Frame) (t : Nat) : List Response :=
  match f with
  | .malformed => [.error "Invalid JSON format" t]
  | .nonObject v =>
      [.error ("Server error: \x27" ++ pyTypeName v ++
        "\x27 object has no attribute \x27get\x27") t]
  | .decoded m =>
      match routeDecoded m t with
      | .ok r => [r]
      | .error e => [.error ("Server error: " ++ e) t]

/-- The while-true receive loop: one frame handled per iteration,
with the abstract clock advancing between iterations. -/
def dispatchLoop : List Frame → Nat → List Response
  | [], _ => []
  | f :: rest, t => handleFrame f t ++ dispatchLoop rest (t + 1)

/-- The welcome envelope sent immediately after manager.connect. -/
def welcomeEnvelope (t : Nat) : Response :=
  .connection_established "Connected to JotForm Extension WebSocket API" t

/-- All envelopes written to one connection over its lifetime: the
unsolicited welcome, then the loop responses. -/
def sessionOutputs (frames : List Frame) (t0 : Nat) : List Response :=
  welcomeEnvelope t0 :: dispatchLoop frames (t0 + 1)

/-- The registry invariant of the spec: connections are registered at
most once, the metadata dict has exactly one entry per active
connection, and its keys are exactly the active set. -/
structure RegInv (m : Manager) : Prop where
  nodup_active : m.active_connections.Nodup
  nodup_keys : (Manager.metaKeys m).Nodup
  mem_iff : ∀ ws, ws ∈ m.active_connections ↔ ws ∈ Manager.metaKeys m
  len_eq : m.connection_metadata.length = m.active_connections.length

/-- Registry states reachable from the fresh manager by the four
operations. The freshness hypothesis on connect reflects the
transport layer: FastAPI hands each accepted websocket object to the
endpoint exactly once, so connect is never invoked on a handle that
is currently registered. -/
inductive Reachable : Manager → Prop where
  | init : Reachable Manager.init
  | connect {m : Manager} (ws : ConnId) (cid : Option String) (now : Nat) :
      Reachable m → ws ∉ m.active_connections →
      Reachable (Manager.connect m ws cid now)
  | disconnect {m : Manager} (ws : ConnId) :
      Reachable m → Reachable (Manager.disconnect m ws)
  | send {m : Manager} (ws : ConnId) (ok : Bool) (now : Nat) :
      Reachable m → Reachable (Manager.send_personal_message m ws ok now)
  | broadcast {m : Manager} (fails : ConnId → Bool) (now : Nat) :
      Reachable m → Reachable (Manager.broadcast m fails now).1

/-- Decode the decimal character rendering back to the number. -/
def decFromData (cs : List Char) : Nat := ofDec ((cs.map decCharToDigit).reverse)

/-- The fallback ids handed out by a run of Connects with no
caller-supplied clientId and no intervening Disconnect, starting from
an arbitrary registry state. -/
def runFallbackIds (m : Manager) (now : Nat) : List ConnId → List String
  | [] => []
  | ws :: rest =>
      Manager.fallbackClientId m
        :: runFallbackIds (Manager.connect m ws none now) (now + 1) rest

/-- Every branch of the frame handler sends exactly one envelope. -/
theorem handleFrame_length (f : Frame) (t : Nat) : (handleFrame f t).length = 1 := by
  cases f with
  | malformed => rfl
  | nonObject v => rfl
  | decoded m =>
    simp only [handleFrame]
    cases routeDecoded m t <;> rfl

/-- The loop sends exactly one envelope per received frame. -/
theorem dispatchLoop_length (frames : List Frame) (t : Nat) :
    (dispatchLoop frames t).length = frames.length := by
  induction frames generalizing t with
  | nil => rfl
  | cons f rest ih =>
    simp [dispatchLoop, handleFrame_length, ih]
    omega

/-- C1: for every inbound envelope received on an open connection the
dispatcher loop produces exactly one outbound envelope, never zero
and never more, whether the envelope fails to decode, decodes to a
non-object, carries a recognized or unknown type, or triggers a
handler-internal fault; the only outbound envelope not paired with an
inbound one is the single welcome envelope sent right after
admission. -/
theorem C1_exactly_one_outbound_per_inbound (frames : List Frame) (t0 : Nat)
    (f : Frame) (t : Nat) :
    sessionOutputs frames t0 = welcomeEnvelope t0 :: dispatchLoop frames (t0 + 1) ∧
    (dispatchLoop frames (t0 + 1)).length = frames.length ∧
    (handleFrame f t).length = 1 :=
  ⟨rfl, dispatchLoop_length frames (t0 + 1), handleFrame_length f t⟩

/-- C3: an inbound frame whose payload is not valid JSON yields
exactly one error envelope with message Invalid JSON format, the
connection is not terminated and the loop goes on handling the
remaining frames; in particular a subsequent valid ping still yields
a pong. -/
theorem C3_invalid_json_recoverable (rest : List Frame) (t : Nat) :
    dispatchLoop (.malformed :: rest) t
      = Response.error "Invalid JSON format" t :: dispatchLoop rest (t + 1) ∧
    dispatchLoop [.malformed, .decoded ⟨some (.str "ping"), none, none, none, none⟩] t
      = [Response.error "Invalid JSON format" t, Response.pong (t + 1)] :=
  ⟨rfl, rfl⟩

/-- C7: a decoded envelope whose type is any value other than the
three recognized command strings, including an envelope with no type
key at all (rendered None by the f-string), is answered with exactly
one error envelope embedding the offending value, and the loop
continues. -/
theorem C7_unknown_type (m : Msg) (t : Nat) (rest : List Frame)
    (h1 : m.getType ≠ .str "get_automation_sequence")
    (h2 : m.getType ≠ .str "ping")
    (h3 : m.getType ≠ .str "automation_status") :
    handleFrame (.decoded m) t
      = [Response.error ("Unknown message type: " ++ pyStr m.getType) t] ∧
    dispatchLoop (.decoded m :: rest) t
      = Response.error ("Unknown message type: " ++ pyStr m.getType) t
          :: dispatchLoop rest (t + 1) := by
  have hroute : routeDecoded m t
      = .ok (.error ("Unknown message type: " ++ pyStr m.getType) t) := by
    simp [routeDecoded, h1, h2, h3]
  have hframe : handleFrame (.decoded m) t
      = [Response.error ("Unknown message type: " ++ pyStr m.getType) t] := by
    simp [handleFrame, hroute]
  exact ⟨hframe, by simp [dispatchLoop, hframe]⟩

/-- Witness for C7 at the concrete envelope with no type key. -/
theorem C7_unknown_type_witness :
    handleFrame (.decoded ⟨none, none, none, none, none⟩) 0
      = [Response.error "Unknown message type: None" 0] :=
  (C7_unknown_type ⟨none, none, none, none, none⟩ 0 []
    (by decide) (by decide) (by decide)).1

/-- C9: the resolved sequence is independent of the parameters
argument. Both copies of get_custom_sequence accept parameters and
never read it, and the dispatcher response as a whole is unchanged
when only the parameters mapping of the inbound envelope differs. -/
theorem C9_parameters_independence (st : JVal) (ty sq stt sid : Option JVal)
    (p1 p2 : List (String × JVal)) (t : Nat) :
    AutoGen.get_custom_sequence st p1 = AutoGen.get_custom_sequence st p2 ∧
    MainGen.get_custom_sequence st p1 = MainGen.get_custom_sequence st p2 ∧
    handleFrame (.decoded ⟨ty, sq, some p1, stt, sid⟩) t
      = handleFrame (.decoded ⟨ty, sq, some p2, stt, sid⟩) t :=
  ⟨rfl, rfl, rfl⟩

/-- C6: a get_automation_sequence request with sequence_type
form_creation, or with the key absent (the default), is answered with
the fixed form-creation catalog document, whose sequenceId is
form-creation-v1 and which has exactly 6 steps; any sequence_type
string outside the catalog is answered, without an error being
raised, with the stub document custom-type-v1 named by title-casing
the type, which for xyz is exactly the document
custom-xyz-v1, Custom Xyz, with no steps. -/
theorem C6_get_automation_sequence (t : Nat)
    (params : Option (List (String × JVal))) (stt sid : Option JVal) (s : String)
    (h1 : s ≠ "form_creation") (h2 : s ≠ "form_building") :
    handleFrame (.decoded ⟨some (.str "get_automation_sequence"), none, params, stt, sid⟩) t
      = [.automation_sequence_response MainGen.get_form_creation_sequence t] ∧
    handleFrame (.decoded ⟨some (.str "get_automation_sequence"),
        some (.str "form_creation"), params, stt, sid⟩) t
      = [.automation_sequence_response MainGen.get_form_creation_sequence t] ∧
    MainGen.get_form_creation_sequence.sequenceId = "form-creation-v1" ∧
    MainGen.get_form_creation_sequence.steps.length = 6 ∧
    handleFrame (.decoded ⟨some (.str "get_automation_sequence"),
        some (.str s), params, stt, sid⟩) t
      = [.automation_sequence_response
          ⟨"custom-" ++ s ++ "-v1",
            "Custom " ++ pyTitle (pyReplaceChar '_' ' ' s), []⟩ t] ∧
    AutoGen.get_custom_sequence (.str s) (params.getD [])
      = .ok ⟨"custom-" ++ s ++ "-v1",
          "Custom " ++ pyTitle (pyReplaceChar '_' ' ' s), []⟩ := by
  refine ⟨rfl, rfl, rfl, rfl, ?_, ?_⟩
  · simp [handleFrame, routeDecoded, Msg.getType, Msg.getSequenceType,
      MainGen.get_custom_sequence, Except.map, h1, h2]
  · simp [AutoGen.get_custom_sequence, h1, h2]

/-- Witness for C6 at the unrecognized sequence_type xyz. -/
theorem C6_get_automation_sequence_witness :
    handleFrame (.decoded ⟨some (.str "get_automation_sequence"),
        some (.str "xyz"), none, none, none⟩) 0
      = [.automation_sequence_response ⟨"custom-xyz-v1", "Custom Xyz", []⟩ 0] ∧
    MainGen.get_form_creation_sequence.steps.length = 6 := by
  have h := C6_get_automation_sequence 0 none none none "xyz" (by decide) (by decide)
  exact ⟨h.2.2.2.2.1, h.2.2.2.1⟩

/-- On a connection outside the active set, disconnect is a no-op. -/
theorem disconnect_not_mem (m : Manager) (ws : ConnId)
    (h : ws ∉ m.active_connections) : Manager.disconnect m ws = m := by
  simp [Manager.disconnect, h]

/-- C4: ConnectionManager.disconnect is total and idempotent: on a
connection outside the active set, including one never registered or
one already disconnected, it is a no-op on the whole registry (and
being a total function of the state it neither raises nor blocks);
and under the registry invariant that each connection is active at
most once, running it twice equals running it once. -/
theorem C4_disconnect_idempotent (m : Manager) (ws : ConnId) :
    (ws ∉ m.active_connections → Manager.disconnect m ws = m) ∧
    (m.active_connections.Nodup →
      Manager.disconnect (Manager.disconnect m ws) ws = Manager.disconnect m ws) := by
  refine ⟨disconnect_not_mem m ws, ?_⟩
  intro hnd
  by_cases h : ws ∈ m.active_connections
  · have h1 : Manager.disconnect m ws
        = { active_connections := m.active_connections.erase ws
            connection_metadata := Manager.eraseMeta m.connection_metadata ws } := by
      simp [Manager.disconnect, h]
    have h2 : ws ∉ (Manager.disconnect m ws).active_connections := by
      rw [h1]
      exact hnd.not_mem_erase
    exact disconnect_not_mem _ ws h2
  · have h1 : Manager.disconnect m ws = m := disconnect_not_mem m ws h
    rw [h1]
    exact h1

/-- Witness for C4: a connection never registered is a no-op, and a
double disconnect of a live connection equals a single one. -/
theorem C4_disconnect_idempotent_witness :
    Manager.disconnect { active_connections := [1, 2], connection_metadata := [] } 5
      = { active_connections := [1, 2], connection_metadata := [] } ∧
    Manager.disconnect
        (Manager.disconnect
          { active_connections := [1, 2], connection_metadata := [] } 1) 1
      = Manager.disconnect { active_connections := [1, 2], connection_metadata := [] } 1 :=
  ⟨(C4_disconnect_idempotent ⟨[1, 2], []⟩ 5).1 (by decide),
   (C4_disconnect_idempotent ⟨[1, 2], []⟩ 1).2 (by decide)⟩

/-- C10: a successful send to a connection only refreshes the target
entry's last_activity: the active list (membership and order), the
dict size, the key sequence, every entry's client_id and
connected_at, and every entry keyed by another connection are all
unchanged, while an entry keyed by the target gets last_activity set
to the send time. -/
theorem C10_send_frame (m : Manager) (ws : ConnId) (now : Nat) (i : Nat) :
    (Manager.send_personal_message m ws true now).active_connections
      = m.active_connections ∧
    (Manager.send_personal_message m ws true now).connection_metadata.length
      = m.connection_metadata.length ∧
    ((Manager.send_personal_message m ws true now).connection_metadata[i]?.map Prod.fst
      = m.connection_metadata[i]?.map Prod.fst) ∧
    ((Manager.send_personal_message m ws true now).connection_metadata[i]?.map
        (fun p => p.2.client_id)
      = m.connection_metadata[i]?.map (fun p => p.2.client_id)) ∧
    ((Manager.send_personal_message m ws true now).connection_metadata[i]?.map
        (fun p => p.2.connected_at)
      = m.connection_metadata[i]?.map (fun p => p.2.connected_at)) ∧
    (∀ p : ConnId × Meta, m.connection_metadata[i]? = some p → p.1 ≠ ws →
      (Manager.send_personal_message m ws true now).connection_metadata[i]? = some p) ∧
    (∀ p : ConnId × Meta, m.connection_metadata[i]? = some p → p.1 = ws →
      (Manager.send_personal_message m ws true now).connection_metadata[i]?
        = some (p.1, { p.2 with last_activity := now })) := by
  have hmeta : (Manager.send_personal_message m ws true now).connection_metadata
      = Manager.updateActivity m.connection_metadata ws now := rfl
  refine ⟨rfl, by simp [hmeta, Manager.updateActivity], ?_, ?_, ?_, ?_, ?_⟩
  · rw [hmeta]
    simp only [Manager.updateActivity, List.getElem?_map]
    cases m.connection_metadata[i]? with
    | none => rfl
    | some p =>
      by_cases hp : p.1 = ws <;> simp [hp]
  · rw [hmeta]
    simp only [Manager.updateActivity, List.getElem?_map]
    cases m.connection_metadata[i]? with
    | none => rfl
    | some p =>
      by_cases hp : p.1 = ws <;> simp [hp]
  · rw [hmeta]
    simp only [Manager.updateActivity, List.getElem?_map]
    cases m.connection_metadata[i]? with
    | none => rfl
    | some p =>
      by_cases hp : p.1 = ws <;> simp [hp]
  · intro p hp hne
    rw [hmeta]
    simp [Manager.updateActivity, List.getElem?_map, hp, hne]
  · intro p hp heq
    rw [hmeta]
    simp [Manager.updateActivity, List.getElem?_map, hp, heq]

/-- Witness for C10 on a two-session registry, sending to the first. -/
theorem C10_send_frame_witness :
    (Manager.send_personal_message
        ⟨[1, 2], [(1, ⟨"client_1", 0, 0⟩), (2, ⟨"client_2", 0, 0⟩)]⟩ 1 true 9).connection_metadata[1]?
      = some (2, ⟨"client_2", 0, 0⟩) ∧
    (Manager.send_personal_message
        ⟨[1, 2], [(1, ⟨"client_1", 0, 0⟩), (2, ⟨"client_2", 0, 0⟩)]⟩ 1 true 9).connection_metadata[0]?
      = some (1, ⟨"client_1", 0, 9⟩) ∧
    (Manager.send_personal_message
        ⟨[1, 2], [(1, ⟨"client_1", 0, 0⟩), (2, ⟨"client_2", 0, 0⟩)]⟩ 1 true 9).active_connections
      = [1, 2] :=
  ⟨(C10_send_frame ⟨[1, 2], [(1, ⟨"client_1", 0, 0⟩), (2, ⟨"client_2", 0, 0⟩)]⟩ 1 9 1).2.2.2.2.2.1
      (2, ⟨"client_2", 0, 0⟩) (by decide) (by decide),
   (C10_send_frame ⟨[1, 2], [(1, ⟨"client_1", 0, 0⟩), (2, ⟨"client_2", 0, 0⟩)]⟩ 1 9 0).2.2.2.2.2.2
      (1, ⟨"client_1", 0, 0⟩) (by decide) (by decide),
   (C10_send_frame ⟨[1, 2], [(1, ⟨"client_1", 0, 0⟩), (2, ⟨"client_2", 0, 0⟩)]⟩ 1 9 0).1⟩

/-- Refreshing an activity timestamp never changes the key sequence
of the metadata dict. -/
theorem updateActivity_keys (l : List (ConnId × Meta)) (ws : ConnId) (now : Nat) :
    (Manager.updateActivity l ws now).map Prod.fst = l.map Prod.fst := by
  unfold Manager.updateActivity
  rw [List.map_map]
  apply List.map_congr_left
  intro p _
  by_cases hp : p.1 = ws <;> simp [hp]

/-- The broadcast sweep only refreshes activity timestamps: the key
sequence of the metadata dict is unchanged. -/
theorem broadcastSweep_keys (conns : List ConnId) :
    ∀ meta fails now,
      ((Manager.broadcastSweep meta conns fails now).1).map Prod.fst
        = meta.map Prod.fst := by
  induction conns with
  | nil => intro meta fails now; rfl
  | cons c rest ih =>
    intro meta fails now
    by_cases hc : fails c <;>
      simp [Manager.broadcastSweep, hc, ih, updateActivity_keys]

/-- The sweep delivers the message to exactly the active connections
whose transport does not fail, in order. -/
theorem broadcastSweep_delivered (conns : List ConnId) :
    ∀ meta fails now,
      (Manager.broadcastSweep meta conns fails now).2.1
        = conns.filter (fun c => !(fails c)) := by
  induction conns with
  | nil => intro meta fails now; rfl
  | cons c rest ih =>
    intro meta fails now
    by_cases hc : fails c <;>
      simp [Manager.broadcastSweep, List.filter_cons, hc, ih]

/-- The sweep collects exactly the active connections whose transport
fails, in order, without touching the active list. -/
theorem broadcastSweep_disconnected (conns : List ConnId) :
    ∀ meta fails now,
      (Manager.broadcastSweep meta conns fails now).2.2
        = conns.filter fails := by
  induction conns with
  | nil => intro meta fails now; rfl
  | cons c rest ih =>
    intro meta fails now
    by_cases hc : fails c <;>
      simp [Manager.broadcastSweep, List.filter_cons, hc, ih]

/-- Folding disconnect over a duplicate-free list of live connections
removes exactly those connections from the active list. -/
theorem foldl_disconnect_active (dis : List ConnId) :
    ∀ m : Manager, m.active_connections.Nodup → dis.Nodup →
      (∀ c ∈ dis, c ∈ m.active_connections) →
      (dis.foldl Manager.disconnect m).active_connections
        = m.active_connections.filter (fun a => !(dis.elem a)) := by
  induction dis with
  | nil => intro m _ _ _; simp
  | cons c rest ih =>
    intro m hA hnd hsub
    have hc : c ∈ m.active_connections := hsub c (List.mem_cons_self c rest)
    have hcr : c ∉ rest := (List.nodup_cons.mp hnd).1
    have hrest : rest.Nodup := (List.nodup_cons.mp hnd).2
    have hdm : (Manager.disconnect m c).active_connections
        = m.active_connections.erase c := by
      simp [Manager.disconnect, hc]
    rw [List.foldl_cons, ih (Manager.disconnect m c)
      (by rw [hdm]; exact hA.erase c) hrest
      (by
        intro x hx
        rw [hdm, hA.mem_erase_iff]
        exact ⟨fun he => absurd (he ▸ hx) hcr, hsub x (List.mem_cons_of_mem c hx)⟩)]
    rw [hdm, hA.erase_eq_filter c, List.filter_filter]
    apply List.filter_congr
    intro a _
    by_cases hac : a = c <;> simp [hac, List.elem_cons]

/-- Filtering a list by a predicate and by its negation partitions
its length. -/
theorem length_filter_not_add {α : Type} (l : List α) (p : α → Bool) :
    (l.filter p).length + (l.filter (fun a => !(p a))).length = l.length := by
  induction l with
  | nil => rfl
  | cons a rest ih =>
    by_cases h : p a <;> simp [List.filter_cons, h] <;> omega

/-- Membership in the collected-failures list coincides with the
transport oracle on connections that are active at call time. -/
theorem elem_filter_fails (A : List ConnId) (fails : ConnId → Bool) :
    ∀ a ∈ A, (A.filter fails).elem a = fails a := by
  intro a ha
  rcases Bool.eq_false_or_eq_true (fails a) with hf | hf
  · rw [hf]
    exact List.elem_iff.mpr (List.mem_filter.mpr ⟨ha, hf⟩)
  · rw [hf]
    apply Bool.eq_false_iff.mpr
    intro htrue
    have hmem := List.elem_iff.mp htrue
    rw [List.mem_filter] at hmem
    rw [hmem.2] at hf
    cases hf

/-- C2: a broadcast over a duplicate-free active set attempts the
write for every session active at call time (the delivered and
evicted lists partition it), delivers the message to exactly the
sessions whose write succeeds, evicts exactly the failing sessions
and only after the sweep over the unchanged active list completes,
and decreases ActiveCount by exactly the number of failures. -/
theorem C2_broadcast_evicts_failures (m : Manager) (fails : ConnId → Bool) (now : Nat)
    (hnd : m.active_connections.Nodup) :
    (Manager.broadcast m fails now).2.1
        = m.active_connections.filter (fun c => !(fails c)) ∧
    (Manager.broadcast m fails now).2.2 = m.active_connections.filter fails ∧
    (Manager.broadcast m fails now).1.active_connections
        = m.active_connections.filter (fun c => !(fails c)) ∧
    (Manager.broadcast m fails now).2.1.length
        + (Manager.broadcast m fails now).2.2.length = Manager.activeCount m ∧
    Manager.activeCount m
        = Manager.activeCount (Manager.broadcast m fails now).1
            + (m.active_connections.filter fails).length := by
  have hdel : (Manager.broadcast m fails now).2.1
      = m.active_connections.filter (fun c => !(fails c)) := by
    simp [Manager.broadcast, broadcastSweep_delivered]
  have hdis : (Manager.broadcast m fails now).2.2
      = m.active_connections.filter fails := by
    simp [Manager.broadcast, broadcastSweep_disconnected]
  have hact : (Manager.broadcast m fails now).1.active_connections
      = m.active_connections.filter (fun c => !(fails c)) := by
    have hstep : (Manager.broadcast m fails now).1
        = (m.active_connections.filter fails).foldl Manager.disconnect
            { active_connections := m.active_connections
              connection_metadata :=
                (Manager.broadcastSweep m.connection_metadata m.active_connections
                  fails now).1 } := by
      simp [Manager.broadcast, broadcastSweep_disconnected]
    rw [hstep, foldl_disconnect_active (m.active_connections.filter fails)
      { active_connections := m.active_connections
        connection_metadata :=
          (Manager.broadcastSweep m.connection_metadata m.active_connections
            fails now).1 }
      hnd (hnd.filter fails) (fun c hc => (List.mem_filter.mp hc).1)]
    apply List.filter_congr
    intro a ha
    rw [elem_filter_fails m.active_connections fails a ha]
  refine ⟨hdel, hdis, hact, ?_, ?_⟩
  · rw [hdel, hdis]
    have := length_filter_not_add m.active_connections fails
    unfold Manager.activeCount
    omega
  · have h1 : Manager.activeCount (Manager.broadcast m fails now).1
        = (m.active_connections.filter (fun c => !(fails c))).length :=
      congrArg List.length hact
    have := length_filter_not_add m.active_connections fails
    unfold Manager.activeCount
    unfold Manager.activeCount at h1
    omega

/-- Witness for C2: three live sessions, the second with a broken
transport; the other two receive the message, the broken one is
evicted, and the active count drops from 3 to 2. -/
theorem C2_broadcast_evicts_failures_witness :
    (Manager.broadcast
        ⟨[1, 2, 3], [(1, ⟨"client_1", 0, 0⟩), (2, ⟨"client_2", 0, 0⟩), (3, ⟨"client_3", 0, 0⟩)]⟩
        (fun c => c == 2) 7).2.1 = [1, 3] ∧
    (Manager.broadcast
        ⟨[1, 2, 3], [(1, ⟨"client_1", 0, 0⟩), (2, ⟨"client_2", 0, 0⟩), (3, ⟨"client_3", 0, 0⟩)]⟩
        (fun c => c == 2) 7).2.2 = [2] ∧
    Manager.activeCount (Manager.broadcast
        ⟨[1, 2, 3], [(1, ⟨"client_1", 0, 0⟩), (2, ⟨"client_2", 0, 0⟩), (3, ⟨"client_3", 0, 0⟩)]⟩
        (fun c => c == 2) 7).1 = 2 := by
  have h := C2_broadcast_evicts_failures
    ⟨[1, 2, 3], [(1, ⟨"client_1", 0, 0⟩), (2, ⟨"client_2", 0, 0⟩), (3, ⟨"client_3", 0, 0⟩)]⟩
    (fun c => c == 2) 7 (by decide)
  exact ⟨h.1, h.2.1, congrArg List.length h.2.2.1⟩


/-- Deleting a key from the metadata dict filters exactly that key
out of the key sequence. -/
theorem eraseMeta_keys (l : List (ConnId × Meta)) (ws : ConnId) :
    (Manager.eraseMeta l ws).map Prod.fst
      = (l.map Prod.fst).filter (fun k => k ≠ ws) := by
  induction l with
  | nil => rfl
  | cons p rest ih =>
    by_cases hp : p.1 = ws <;>
      simp [Manager.eraseMeta, List.filter_cons, hp] <;>
      simpa [Manager.eraseMeta] using ih

/-- Removing one occurrence of a member from a duplicate-free list by
filtering shortens it by exactly one. -/
theorem length_filter_ne_of_nodup (ks : List ConnId) (a : ConnId) :
    ks.Nodup → a ∈ ks → (ks.filter (fun k => k ≠ a)).length + 1 = ks.length := by
  induction ks with
  | nil => intro _ h; exact absurd h (List.not_mem_nil a)
  | cons k rest ih =>
    intro hnd hmem
    rcases List.nodup_cons.mp hnd with ⟨hkr, hrest⟩
    by_cases hk : k = a
    · subst hk
      have hfil : rest.filter (fun x => x ≠ k) = rest := by
        apply List.filter_eq_self.mpr
        intro x hx
        simp only [decide_eq_true_eq]
        intro he
        exact hkr (he ▸ hx)
      have hdecf : (decide (k ≠ k)) = false := by simp
      rw [List.filter_cons, hdecf]
      simp only [Bool.false_eq_true, if_false, hfil, List.length_cons]
    · have hmem2 : a ∈ rest := by
        rcases List.mem_cons.mp hmem with h | h
        · exact absurd h.symm hk
        · exact h
      have hih := ih hrest hmem2
      have hdec : (decide (k ≠ a)) = true := by simp [hk]
      simp only [List.filter_cons, hdec, if_true, List.length_cons]
      omega

/-- The empty registry satisfies the invariant. -/
theorem RegInv_init : RegInv Manager.init :=
  ⟨List.nodup_nil, List.nodup_nil, by simp [Manager.metaKeys, Manager.init], rfl⟩

/-- Admitting a fresh connection preserves the invariant. -/
theorem RegInv_connect (m : Manager) (ws : ConnId) (cid : Option String) (now : Nat)
    (h : RegInv m) (hws : ws ∉ m.active_connections) :
    RegInv (Manager.connect m ws cid now) := by
  have hkeys : ws ∉ Manager.metaKeys m := fun hk => hws ((h.mem_iff ws).mpr hk)
  have hany : (m.connection_metadata.any (fun p => p.1 = ws)) = false := by
    rw [List.any_eq_false]
    intro p hp
    simp only [decide_eq_true_eq]
    intro he
    exact hkeys (he ▸ List.mem_map_of_mem Prod.fst hp)
  have hmeta : ∀ v, Manager.insertMeta m.connection_metadata ws v
      = m.connection_metadata ++ [(ws, v)] := by
    intro v
    simp [Manager.insertMeta, hany]
  constructor
  · exact h.nodup_active.append (List.nodup_singleton ws)
      (by intro a ha hb; rw [List.mem_singleton] at hb; exact hws (hb ▸ ha))
  · show ((Manager.insertMeta m.connection_metadata ws _).map Prod.fst).Nodup
    rw [hmeta, List.map_append]
    exact h.nodup_keys.append (List.nodup_singleton ws)
      (by intro a ha hb
          simp only [List.map_singleton, List.mem_singleton] at hb
          subst hb
          exact hkeys ha)
  · intro x
    show x ∈ m.active_connections ++ [ws]
      ↔ x ∈ (Manager.insertMeta m.connection_metadata ws _).map Prod.fst
    rw [hmeta, List.map_append, List.mem_append, List.mem_append]
    simp only [List.map_singleton]
    rw [h.mem_iff x]
    exact Iff.rfl
  · show (Manager.insertMeta m.connection_metadata ws _).length
      = (m.active_connections ++ [ws]).length
    rw [hmeta, List.length_append, List.length_append, h.len_eq]
    rfl

/-- Evicting any connection preserves the invariant. -/
theorem RegInv_disconnect (m : Manager) (ws : ConnId) (h : RegInv m) :
    RegInv (Manager.disconnect m ws) := by
  by_cases hin : ws ∈ m.active_connections
  · have hkeys : ws ∈ Manager.metaKeys m := (h.mem_iff ws).mp hin
    have hd : Manager.disconnect m ws
        = { active_connections := m.active_connections.erase ws
            connection_metadata := Manager.eraseMeta m.connection_metadata ws } := by
      simp [Manager.disconnect, hin]
    rw [hd]
    constructor
    · exact h.nodup_active.erase ws
    · show ((Manager.eraseMeta m.connection_metadata ws).map Prod.fst).Nodup
      rw [eraseMeta_keys]
      exact h.nodup_keys.filter _
    · intro x
      show x ∈ m.active_connections.erase ws
        ↔ x ∈ (Manager.eraseMeta m.connection_metadata ws).map Prod.fst
      rw [eraseMeta_keys, h.nodup_active.mem_erase_iff, List.mem_filter]
      constructor
      · rintro ⟨hne, hx⟩
        exact ⟨(h.mem_iff x).mp hx, by simp [hne]⟩
      · rintro ⟨hx, hne⟩
        simp only [decide_eq_true_eq] at hne
        exact ⟨hne, (h.mem_iff x).mpr hx⟩
    · show (Manager.eraseMeta m.connection_metadata ws).length
        = (m.active_connections.erase ws).length
      have h1 : (Manager.eraseMeta m.connection_metadata ws).length
          = ((Manager.metaKeys m).filter (fun k => k ≠ ws)).length := by
        unfold Manager.metaKeys
        rw [← eraseMeta_keys, List.length_map]
      have h2 := length_filter_ne_of_nodup (Manager.metaKeys m) ws h.nodup_keys hkeys
      have h3 : (m.active_connections.erase ws).length
          = m.active_connections.length - 1 := List.length_erase_of_mem hin
      have h4 : (Manager.metaKeys m).length = m.connection_metadata.length :=
        List.length_map _ _
      have h5 := h.len_eq
      have h6 : 0 < m.active_connections.length := List.length_pos_of_mem hin
      omega
  · rw [disconnect_not_mem m ws hin]
    exact h

/-- A send, succeeding or failing, preserves the invariant. -/
theorem RegInv_send (m : Manager) (ws : ConnId) (ok : Bool) (now : Nat)
    (h : RegInv m) : RegInv (Manager.send_personal_message m ws ok now) := by
  cases ok with
  | false => exact RegInv_disconnect m ws h
  | true =>
    have hkeys : Manager.metaKeys (Manager.send_personal_message m ws true now)
        = Manager.metaKeys m := updateActivity_keys m.connection_metadata ws now
    constructor
    · exact h.nodup_active
    · rw [hkeys]; exact h.nodup_keys
    · intro x; rw [hkeys]; exact h.mem_iff x
    · show (Manager.updateActivity m.connection_metadata ws now).length
        = m.active_connections.length
      rw [Manager.updateActivity, List.length_map]
      exact h.len_eq

/-- The broadcast sweep preserves the invariant of the intermediate
state whose metadata it refreshes. -/
theorem RegInv_broadcast_mid (m : Manager) (fails : ConnId → Bool) (now : Nat)
    (h : RegInv m) :
    RegInv { active_connections := m.active_connections
             connection_metadata :=
               (Manager.broadcastSweep m.connection_metadata m.active_connections
                 fails now).1 } := by
  have hkeys : ((Manager.broadcastSweep m.connection_metadata m.active_connections
      fails now).1).map Prod.fst = Manager.metaKeys m :=
    broadcastSweep_keys m.active_connections m.connection_metadata fails now
  constructor
  · exact h.nodup_active
  · show ((Manager.broadcastSweep _ _ _ _).1.map Prod.fst).Nodup
    rw [hkeys]; exact h.nodup_keys
  · intro x
    show x ∈ m.active_connections ↔ x ∈ (Manager.broadcastSweep _ _ _ _).1.map Prod.fst
    rw [hkeys]; exact h.mem_iff x
  · show (Manager.broadcastSweep _ _ _ _).1.length = m.active_connections.length
    have hlen := congrArg List.length hkeys
    unfold Manager.metaKeys at hlen
    rw [List.length_map, List.length_map] at hlen
    rw [hlen]
    exact h.len_eq

/-- Folding disconnect over any eviction list preserves the
invariant. -/
theorem RegInv_foldl_disconnect (dis : List ConnId) :
    ∀ m : Manager, RegInv m → RegInv (dis.foldl Manager.disconnect m) := by
  induction dis with
  | nil => intro m h; exact h
  | cons c rest ih =>
    intro m h
    rw [List.foldl_cons]
    exact ih (Manager.disconnect m c) (RegInv_disconnect m c h)

/-- A whole broadcast preserves the invariant. -/
theorem RegInv_broadcast (m : Manager) (fails : ConnId → Bool) (now : Nat)
    (h : RegInv m) : RegInv (Manager.broadcast m fails now).1 :=
  RegInv_foldl_disconnect _ _ (RegInv_broadcast_mid m fails now h)

/-- Every reachable registry state satisfies the invariant. -/
theorem RegInv_reachable (m : Manager) (h : Reachable m) : RegInv m := by
  induction h with
  | init => exact RegInv_init
  | connect ws cid now _ hws ih => exact RegInv_connect _ ws cid now ih hws
  | disconnect ws _ ih => exact RegInv_disconnect _ ws ih
  | send ws ok now _ ih => exact RegInv_send _ ws ok now ih
  | broadcast fails now _ ih => exact RegInv_broadcast _ fails now ih

/-- C5: in every registry state reachable by Connect, Disconnect,
SendTo and Broadcast, each connection is registered at most once and
has at most one metadata entry, a metadata entry exists exactly when
its connection is in the active set, and the active list and the
metadata dict have the same elements and the same size. -/
theorem C5_registry_invariant (m : Manager) (h : Reachable m) :
    m.active_connections.Nodup ∧
    (Manager.metaKeys m).Nodup ∧
    (∀ ws, ws ∈ m.active_connections ↔ ws ∈ Manager.metaKeys m) ∧
    m.connection_metadata.length = m.active_connections.length := by
  have hi := RegInv_reachable m h
  exact ⟨hi.nodup_active, hi.nodup_keys, hi.mem_iff, hi.len_eq⟩

/-- Witness for C5 on a concrete reachable state: one connect, one
broadcast with a failing transport, then a disconnect. -/
theorem C5_registry_invariant_witness :
    (Manager.disconnect
        (Manager.broadcast (Manager.connect Manager.init 0 none 5)
          (fun c => c == 0) 6).1 3).connection_metadata.length
      = (Manager.disconnect
          (Manager.broadcast (Manager.connect Manager.init 0 none 5)
            (fun c => c == 0) 6).1 3).active_connections.length :=
  (C5_registry_invariant _
    (Reachable.disconnect 3
      (Reachable.broadcast (fun c => c == 0) 6
        (Reachable.connect 0 none 5 Reachable.init (by decide))))).2.2.2

/-- All produced digits are decimal digits. -/
theorem decDigitsFuel_lt (fuel : Nat) :
    ∀ n d, d ∈ decDigitsFuel fuel n → d < 10 := by
  induction fuel with
  | zero => intro n d h; cases h
  | succ fuel ih =>
    intro n d h
    cases n with
    | zero => cases h
    | succ k =>
      rw [decDigitsFuel] at h
      rcases List.mem_cons.mp h with h | h
      · rw [h]; exact Nat.mod_lt _ (by omega)
      · exact ih _ d h

/-- Recombining the digit list of ofDec after a cons. -/
theorem ofDec_cons (d : Nat) (ds : List Nat) : ofDec (d :: ds) = d + 10 * ofDec ds := rfl

/-- Recombination inverts the digit expansion when the fuel
suffices. -/
theorem ofDec_decDigitsFuel (fuel : Nat) :
    ∀ n, n ≤ fuel → ofDec (decDigitsFuel fuel n) = n := by
  induction fuel with
  | zero =>
    intro n h
    have hn : n = 0 := by omega
    subst hn
    rfl
  | succ fuel ih =>
    intro n h
    cases n with
    | zero => rfl
    | succ k =>
      rw [decDigitsFuel, ofDec_cons]
      have hdiv : (k + 1) / 10 ≤ fuel := by
        have := Nat.div_lt_self (show 0 < k + 1 by omega) (show 1 < 10 by omega)
        omega
      rw [ih _ hdiv]
      omega

/-- Recombination inverts decDigits. -/
theorem ofDec_decDigits (n : Nat) : ofDec (decDigits n) = n :=
  ofDec_decDigitsFuel n n (Nat.le_refl n)

/-- decCharToDigit inverts decDigitChar on decimal digits. -/
theorem decCharToDigit_decDigitChar (d : Nat) (h : d < 10) :
    decCharToDigit (decDigitChar d) = d := by
  interval_cases d <;> decide

/-- decFromData inverts the Python decimal rendering. -/
theorem decFromData_natToDec (n : Nat) : decFromData (natToDec n).data = n := by
  by_cases h0 : n = 0
  · subst h0; rfl
  · rw [natToDec, if_neg h0]
    show decFromData (((decDigits n).map decDigitChar).reverse) = n
    unfold decFromData
    rw [List.map_reverse, List.reverse_reverse, List.map_map]
    have hmap : (decDigits n).map (decCharToDigit ∘ decDigitChar)
        = (decDigits n).map id :=
      List.map_congr_left
        (fun d hd => decCharToDigit_decDigitChar d (decDigitsFuel_lt n n d hd))
    rw [hmap, List.map_id, ofDec_decDigits]

/-- The Python decimal rendering of naturals is injective. -/
theorem natToDec_inj (a b : Nat) (h : natToDec a = natToDec b) : a = b := by
  have ha := decFromData_natToDec a
  have hb := decFromData_natToDec b
  rw [h] at ha
  rw [hb] at ha
  exact ha.symm

/-- Two client tags coincide only on equal numbers. -/
theorem clientTag_inj (a b : Nat)
    (h : "client_" ++ natToDec a = "client_" ++ natToDec b) : a = b := by
  apply natToDec_inj
  have hd := congrArg String.data h
  rw [String.data_append, String.data_append] at hd
  exact String.ext (List.append_cancel_left hd)

/-- Closed form of the run ids: consecutive decimal labels from the
starting registry size. -/
theorem runFallbackIds_eq (wss : List ConnId) :
    ∀ (m : Manager) (now : Nat),
      runFallbackIds m now wss
        = (List.range wss.length).map
            (fun i => "client_" ++ natToDec (m.active_connections.length + 1 + i)) := by
  induction wss with
  | nil => intro m now; rfl
  | cons ws rest ih =>
    intro m now
    show Manager.fallbackClientId m
        :: runFallbackIds (Manager.connect m ws none now) (now + 1) rest = _
    rw [ih]
    have hlen : (Manager.connect m ws none now).active_connections.length
        = m.active_connections.length + 1 := by
      simp [Manager.connect]
    rw [hlen, List.length_cons, List.range_succ_eq_map, List.map_cons, List.map_map]
    refine List.cons_eq_cons.mpr ⟨?_, ?_⟩
    · show Manager.fallbackClientId m
        = "client_" ++ natToDec (m.active_connections.length + 1 + 0)
      rw [Manager.fallbackClientId, Nat.add_zero]
    · apply List.map_congr_left
      intro i _
      show "client_" ++ natToDec (m.active_connections.length + 1 + 1 + i)
        = "client_" ++ natToDec (m.active_connections.length + 1 + Nat.succ i)
      exact congrArg (fun k => "client_" ++ natToDec k) (by omega)

/-- C8 counterexample: connect, disconnect, connect again at the same
registry size; the two distinct sessions (handles 0 and 1, admitted
at ticks 0 and 1) both receive the generated fallback identifier
client_1, and the second state is reachable. -/
theorem C8_counterexample :
    (Manager.connect Manager.init 0 none 0).connection_metadata.map
        (fun p => p.2.client_id) = ["client_1"] ∧
    (Manager.connect (Manager.disconnect (Manager.connect Manager.init 0 none 0) 0)
        1 none 1).connection_metadata.map (fun p => p.2.client_id) = ["client_1"] ∧
    Reachable (Manager.connect
      (Manager.disconnect (Manager.connect Manager.init 0 none 0) 0) 1 none 1) :=
  ⟨by decide, by decide,
   Reachable.connect 1 none 1
     (Reachable.disconnect 0
       (Reachable.connect 0 none 0 Reachable.init (by decide)))
     (by decide)⟩

/-- C8 as amended: the generated fallback identifier is client_n for
n the active-connection count after insertion; two fallback ids
coincide exactly when those counts coincide, so the ids of a run of
Connects with no intervening Disconnect are pairwise distinct, but
the identifier is not unique within the process across
disconnect/reconnect churn. -/
theorem C8_amended_fallback_ids (m1 m2 : Manager) :
    (Manager.fallbackClientId m1 = Manager.fallbackClientId m2
      ↔ Manager.activeCount m1 = Manager.activeCount m2) ∧
    (∀ (m : Manager) (cid : Option String) (ws : ConnId) (now : Nat),
      Manager.chosenClientId m none = Manager.fallbackClientId m) ∧
    (∀ (m : Manager) (now : Nat) (wss : List ConnId),
      (runFallbackIds m now wss).Nodup) := by
  refine ⟨⟨?_, ?_⟩, fun m cid ws now => rfl, ?_⟩
  · intro h
    have := clientTag_inj _ _ h
    unfold Manager.activeCount
    omega
  · intro h
    unfold Manager.activeCount at h
    unfold Manager.fallbackClientId
    rw [h]
  · intro m now wss
    rw [runFallbackIds_eq]
    apply List.Nodup.map_on ?_ (List.nodup_range _)
    intro x _ y _ hxy
    have := clientTag_inj _ _ hxy
    omega
